import Mathlib

/-!
Verification of the XShaderCompiler core against its specification.

The definitions below are shallow embeddings of the C++ functions in
`src/Compiler/AST/ASTEnums.cpp` and `src/Compiler/Backend/GLSL/GLSLGenerator.cpp`.
C++ `int` values are modelled as `Int`, `std::size_t` as `Nat`, `std::string`
as `List Char` (or Lean `String` for the GLSL text emitter), and functions that
throw (`InvalidArg`, `Error`) return `Except`/`Option` values instead.
-/

/-!
## DataType enum

Modelled from the spec: the `DataType` enum itself is declared in `ASTEnums.h`,
which is not part of the provided sources.  Spec §4.1 fixes its numerical
layout: scalars occupy `[Bool..Double]`, vectors `[Bool2..Double4]` in
row-major (base × size) order, matrices `[Bool2x2..Double4x4]` in
(base × rows × cols) order; `Undefined` and `String` precede the grid.
All range checks and index arithmetic in `ASTEnums.cpp` are consistent with
exactly this layout.  A C++ enum value is its integer index, so the enum is
embedded as a wrapper around the index.
-/

structure DataType where
  val : Nat
deriving DecidableEq, Repr

def DataType.Undefined : DataType := ⟨0⟩
def DataType.String : DataType := ⟨1⟩
def DataType.Bool : DataType := ⟨2⟩
def DataType.Int : DataType := ⟨3⟩
def DataType.UInt : DataType := ⟨4⟩
def DataType.Half : DataType := ⟨5⟩
def DataType.Float : DataType := ⟨6⟩
def DataType.Double : DataType := ⟨7⟩
def DataType.Bool2 : DataType := ⟨8⟩
def DataType.Bool3 : DataType := ⟨9⟩
def DataType.Bool4 : DataType := ⟨10⟩
def DataType.Int2 : DataType := ⟨11⟩
def DataType.Int3 : DataType := ⟨12⟩
def DataType.Int4 : DataType := ⟨13⟩
def DataType.UInt2 : DataType := ⟨14⟩
def DataType.UInt3 : DataType := ⟨15⟩
def DataType.UInt4 : DataType := ⟨16⟩
def DataType.Half2 : DataType := ⟨17⟩
def DataType.Half3 : DataType := ⟨18⟩
def DataType.Half4 : DataType := ⟨19⟩
def DataType.Float2 : DataType := ⟨20⟩
def DataType.Float3 : DataType := ⟨21⟩
def DataType.Float4 : DataType := ⟨22⟩
def DataType.Double2 : DataType := ⟨23⟩
def DataType.Double3 : DataType := ⟨24⟩
def DataType.Double4 : DataType := ⟨25⟩
def DataType.Bool2x2 : DataType := ⟨26⟩
def DataType.Bool2x3 : DataType := ⟨27⟩
def DataType.Bool2x4 : DataType := ⟨28⟩
def DataType.Bool3x2 : DataType := ⟨29⟩
def DataType.Bool3x3 : DataType := ⟨30⟩
def DataType.Bool3x4 : DataType := ⟨31⟩
def DataType.Bool4x2 : DataType := ⟨32⟩
def DataType.Bool4x3 : DataType := ⟨33⟩
def DataType.Bool4x4 : DataType := ⟨34⟩
def DataType.Int2x2 : DataType := ⟨35⟩
def DataType.Int2x3 : DataType := ⟨36⟩
def DataType.Int2x4 : DataType := ⟨37⟩
def DataType.Int3x2 : DataType := ⟨38⟩
def DataType.Int3x3 : DataType := ⟨39⟩
def DataType.Int3x4 : DataType := ⟨40⟩
def DataType.Int4x2 : DataType := ⟨41⟩
def DataType.Int4x3 : DataType := ⟨42⟩
def DataType.Int4x4 : DataType := ⟨43⟩
def DataType.UInt2x2 : DataType := ⟨44⟩
def DataType.UInt2x3 : DataType := ⟨45⟩
def DataType.UInt2x4 : DataType := ⟨46⟩
def DataType.UInt3x2 : DataType := ⟨47⟩
def DataType.UInt3x3 : DataType := ⟨48⟩
def DataType.UInt3x4 : DataType := ⟨49⟩
def DataType.UInt4x2 : DataType := ⟨50⟩
def DataType.UInt4x3 : DataType := ⟨51⟩
def DataType.UInt4x4 : DataType := ⟨52⟩
def DataType.Half2x2 : DataType := ⟨53⟩
def DataType.Half2x3 : DataType := ⟨54⟩
def DataType.Half2x4 : DataType := ⟨55⟩
def DataType.Half3x2 : DataType := ⟨56⟩
def DataType.Half3x3 : DataType := ⟨57⟩
def DataType.Half3x4 : DataType := ⟨58⟩
def DataType.Half4x2 : DataType := ⟨59⟩
def DataType.Half4x3 : DataType := ⟨60⟩
def DataType.Half4x4 : DataType := ⟨61⟩
def DataType.Float2x2 : DataType := ⟨62⟩
def DataType.Float2x3 : DataType := ⟨63⟩
def DataType.Float2x4 : DataType := ⟨64⟩
def DataType.Float3x2 : DataType := ⟨65⟩
def DataType.Float3x3 : DataType := ⟨66⟩
def DataType.Float3x4 : DataType := ⟨67⟩
def DataType.Float4x2 : DataType := ⟨68⟩
def DataType.Float4x3 : DataType := ⟨69⟩
def DataType.Float4x4 : DataType := ⟨70⟩
def DataType.Double2x2 : DataType := ⟨71⟩
def DataType.Double2x3 : DataType := ⟨72⟩
def DataType.Double2x4 : DataType := ⟨73⟩
def DataType.Double3x2 : DataType := ⟨74⟩
def DataType.Double3x3 : DataType := ⟨75⟩
def DataType.Double3x4 : DataType := ⟨76⟩
def DataType.Double4x2 : DataType := ⟨77⟩
def DataType.Double4x3 : DataType := ⟨78⟩
def DataType.Double4x4 : DataType := ⟨79⟩

/-- `ASTEnums.cpp` line 271: `IsScalarType` — `t >= Bool && t <= Double`. -/
def IsScalarType (t : DataType) : Bool :=
  decide (DataType.Bool.val ≤ t.val ∧ t.val ≤ DataType.Double.val)

/-- `ASTEnums.cpp` line 276: `IsVectorType` — `t >= Bool2 && t <= Double4`. -/
def IsVectorType (t : DataType) : Bool :=
  decide (DataType.Bool2.val ≤ t.val ∧ t.val ≤ DataType.Double4.val)

/-- `ASTEnums.cpp` line 281: `IsMatrixType` — `t >= Bool2x2 && t <= Double4x4`. -/
def IsMatrixType (t : DataType) : Bool :=
  decide (DataType.Bool2x2.val ≤ t.val ∧ t.val ≤ DataType.Double4x4.val)

/-- `ASTEnums.cpp` lines 356-396: `VectorTypeDim` — a switch returning the
vector dimension (1 for scalars, 2/3/4 for vectors, 0 otherwise).  The match
arms list the enum indices of the cases of the C++ switch: e.g. the `return 2`
cases are `Bool2`(8), `Int2`(11), `UInt2`(14), `Half2`(17), `Float2`(20),
`Double2`(23). -/
def VectorTypeDim (t : DataType) : Int :=
  match t.val with
  | 2 | 3 | 4 | 5 | 6 | 7 => 1
  | 8 | 11 | 14 | 17 | 20 | 23 => 2
  | 9 | 12 | 15 | 18 | 21 | 24 => 3
  | 10 | 13 | 16 | 19 | 22 | 25 => 4
  | _ => 0

/-- `ASTEnums.cpp` lines 398-510: `MatrixTypeDim` — a switch returning
(rows, columns): (1,1) for scalars, (n,1) for vectors, (r,c) for matrices,
(0,0) otherwise.  Match arms list the enum indices of the C++ cases, one row
per result pair (e.g. the `{ 2, 2 }` cases are `Bool2x2`(26), `Int2x2`(35),
`UInt2x2`(44), `Half2x2`(53), `Float2x2`(62), `Double2x2`(71)). -/
def MatrixTypeDim (t : DataType) : Int × Int :=
  match t.val with
  | 2 | 3 | 4 | 5 | 6 | 7 => (1, 1)
  | 8 | 11 | 14 | 17 | 20 | 23 => (2, 1)
  | 9 | 12 | 15 | 18 | 21 | 24 => (3, 1)
  | 10 | 13 | 16 | 19 | 22 | 25 => (4, 1)
  | 26 | 35 | 44 | 53 | 62 | 71 => (2, 2)
  | 27 | 36 | 45 | 54 | 63 | 72 => (2, 3)
  | 28 | 37 | 46 | 55 | 64 | 73 => (2, 4)
  | 29 | 38 | 47 | 56 | 65 | 74 => (3, 2)
  | 30 | 39 | 48 | 57 | 66 | 75 => (3, 3)
  | 31 | 40 | 49 | 58 | 67 | 76 => (3, 4)
  | 32 | 41 | 50 | 59 | 68 | 77 => (4, 2)
  | 33 | 42 | 51 | 60 | 69 | 78 => (4, 3)
  | 34 | 43 | 52 | 61 | 70 | 79 => (4, 4)
  | _ => (0, 0)

/-- `ASTEnums.cpp` lines 512-531: `BaseDataType` — for each base `X` in order
Bool, Int, UInt, Half, Float, Double: if `(t >= X2 && t <= X4) ||
(t >= X2x2 && t <= X4x4)` return `X`; otherwise return `t` itself. -/
def BaseDataType (t : DataType) : DataType :=
  if (DataType.Bool2.val ≤ t.val ∧ t.val ≤ DataType.Bool4.val) ∨
     (DataType.Bool2x2.val ≤ t.val ∧ t.val ≤ DataType.Bool4x4.val) then DataType.Bool
  else if (DataType.Int2.val ≤ t.val ∧ t.val ≤ DataType.Int4.val) ∨
     (DataType.Int2x2.val ≤ t.val ∧ t.val ≤ DataType.Int4x4.val) then DataType.Int
  else if (DataType.UInt2.val ≤ t.val ∧ t.val ≤ DataType.UInt4.val) ∨
     (DataType.UInt2x2.val ≤ t.val ∧ t.val ≤ DataType.UInt4x4.val) then DataType.UInt
  else if (DataType.Half2.val ≤ t.val ∧ t.val ≤ DataType.Half4.val) ∨
     (DataType.Half2x2.val ≤ t.val ∧ t.val ≤ DataType.Half4x4.val) then DataType.Half
  else if (DataType.Float2.val ≤ t.val ∧ t.val ≤ DataType.Float4.val) ∨
     (DataType.Float2x2.val ≤ t.val ∧ t.val ≤ DataType.Float4x4.val) then DataType.Float
  else if (DataType.Double2.val ≤ t.val ∧ t.val ≤ DataType.Double4.val) ∨
     (DataType.Double2x2.val ≤ t.val ∧ t.val ≤ DataType.Double4x4.val) then DataType.Double
  else t

/-- `ASTEnums.cpp` line 533: `Idx` — `static_cast<int>(t)`. -/
def Idx (t : DataType) : Int := (t.val : Int)

/-- `ASTEnums.cpp` lines 538-553: `VectorDataType`.  The
`static_cast<DataType>(idx)` is modelled as `⟨idx.toNat⟩`; in the branch where
it is executed `idx ≥ Idx Bool2 > 0`, so `toNat` is lossless. -/
def VectorDataType (baseDataType : DataType) (vectorSize : Int) : DataType :=
  if IsScalarType baseDataType then
    if 2 ≤ vectorSize ∧ vectorSize ≤ 4 then
      ⟨(Idx DataType.Bool2 + (Idx baseDataType - Idx DataType.Bool) * 3
          + (vectorSize - 2)).toNat⟩
    else if vectorSize = 1 then
      baseDataType
    else
      DataType.Undefined
  else
    DataType.Undefined

/-- `ASTEnums.cpp` lines 555-575: `MatrixDataType`.  Branch order follows the
source: 1×1, then `rows == 1`, then `columns == 1`, then the 2..4 × 2..4 grid. -/
def MatrixDataType (baseDataType : DataType) (rows columns : Int) : DataType :=
  if IsScalarType baseDataType then
    if rows = 1 ∧ columns = 1 then
      baseDataType
    else if rows = 1 then
      VectorDataType baseDataType columns
    else if columns = 1 then
      VectorDataType baseDataType rows
    else if 2 ≤ rows ∧ rows ≤ 4 ∧ 2 ≤ columns ∧ columns ≤ 4 then
      ⟨(Idx DataType.Bool2x2 + (Idx baseDataType - Idx DataType.Bool) * 9
          + (rows - 2) * 3 + (columns - 2)).toNat⟩
    else
      DataType.Undefined
  else
    DataType.Undefined


/-!
## Subscript (swizzle) validation — `ASTEnums.cpp` lines 577-671

The C++ functions report errors by throwing `InvalidArg(R_...)`; the embedding
returns `Except SubscriptError DataType`.  The `SubscriptError` constructors
stand for the report identifiers (`R_VectorSubscriptCantHaveNComps`, ...)
together with their interesting arguments.
-/

inductive SubscriptError where
  | vectorSubscriptCantHaveNComps (n : Nat)
  | invalidVectorDimension (n : Int)
  | invalidVectorSubscript (subscript : List Char) (t : DataType)
  | invalidMatrixDimension (rows columns : Int)
  | incompleteMatrixSubscript
  | invalidCharInMatrixSubscript (c : Char) (zeroBased : Bool)
deriving DecidableEq, Repr

/-- `std::string::resize(n)`: truncate to `n` characters, or pad with null
characters up to length `n`. -/
def listResize (s : List Char) (n : Nat) : List Char :=
  if n ≤ s.length then s.take n else s ++ List.replicate (n - s.length) (Char.ofNat 0)

/-- `ASTEnums.cpp` lines 579-590: the `IsValidSubscript` lambda inside
`SubscriptDataTypeVector` — resize the comparison set to the vector dimension
and require every subscript character to occur in it. -/
def IsValidSubscript (subscript : List Char) (compareSubscript : List Char)
    (vectorSize : Int) : Bool :=
  subscript.all (fun chr => (listResize compareSubscript vectorSize.toNat).contains chr)

/-- `ASTEnums.cpp` lines 577-612: `SubscriptDataTypeVector`. -/
def SubscriptDataTypeVector (dataType : DataType) (subscript : List Char)
    (vectorSize : Int) : Except SubscriptError DataType :=
  if subscript.length < 1 ∨ subscript.length > 4 then
    .error (.vectorSubscriptCantHaveNComps subscript.length)
  else if vectorSize < 1 ∨ vectorSize > 4 then
    .error (.invalidVectorDimension vectorSize)
  else if ¬ (IsValidSubscript subscript ['x', 'y', 'z', 'w'] vectorSize ||
             IsValidSubscript subscript ['r', 'g', 'b', 'a'] vectorSize) then
    .error (.invalidVectorSubscript subscript dataType)
  else
    .ok (VectorDataType (BaseDataType dataType) (subscript.length : Int))

/-- `ASTEnums.cpp` lines 625-659: the `ParseNextSubscript` lambda and the
counting loop of `SubscriptDataTypeMatrix`, fused into one recursion over the
remaining characters.  Each chunk is `'_'` + optional `'m'` + two digit
characters; with `'m'` the digits are zero-based (`'0'..'3'`), without it they
are one-based (`'1'..'4'`).  The `i + 3 > s.size()` / `i + 2 > s.size()`
length checks come before the character checks, exactly as in the source.
Returns the number of parsed chunks (the loop's `vectorSize`). -/
def countMatrixSubscripts : List Char → Except SubscriptError Nat
  | [] => .ok 0
  | [_] => .error .incompleteMatrixSubscript
  | [_, _] => .error .incompleteMatrixSubscript
  | c0 :: c1 :: c2 :: rest2 =>
    if c0 ≠ '_' then .error (.invalidCharInMatrixSubscript c0 false)
    else if c1 = 'm' then
      match rest2 with
      | [] => .error .incompleteMatrixSubscript
      | d1 :: rest3 =>
        if c2 < '0' ∨ c2 > '3' then .error (.invalidCharInMatrixSubscript c2 true)
        else if d1 < '0' ∨ d1 > '3' then .error (.invalidCharInMatrixSubscript d1 true)
        else
          match countMatrixSubscripts rest3 with
          | .error e => .error e
          | .ok n => .ok (n + 1)
    else
      if c1 < '1' ∨ c1 > '4' then .error (.invalidCharInMatrixSubscript c1 false)
      else if c2 < '1' ∨ c2 > '4' then .error (.invalidCharInMatrixSubscript c2 false)
      else
        match countMatrixSubscripts rest2 with
        | .error e => .error e
        | .ok n => .ok (n + 1)

/-- `ASTEnums.cpp` lines 618-662: `SubscriptDataTypeMatrix`. -/
def SubscriptDataTypeMatrix (dataType : DataType) (subscript : List Char)
    (rows cols : Int) : Except SubscriptError DataType :=
  if rows < 1 ∨ rows > 4 ∨ cols < 1 ∨ cols > 4 then
    .error (.invalidMatrixDimension rows cols)
  else
    match countMatrixSubscripts subscript with
    | .error e => .error e
    | .ok vectorSize => .ok (VectorDataType (BaseDataType dataType) (vectorSize : Int))

/-- `ASTEnums.cpp` lines 664-671: `SubscriptDataType` — dispatch on
`MatrixTypeDim(dataType).second == 1`. -/
def SubscriptDataType (dataType : DataType) (subscript : List Char) :
    Except SubscriptError DataType :=
  let matrixDim := MatrixTypeDim dataType
  if matrixDim.2 = 1 then
    SubscriptDataTypeVector dataType subscript matrixDim.1
  else
    SubscriptDataTypeMatrix dataType subscript matrixDim.1 matrixDim.2


/-!
## Semantics — `ASTEnums.cpp` lines 923-1060

The `Semantic` enum is declared in `ASTEnums.h` (not under the provided
sources); its constructors are exactly the cases of `SemanticToString`
(`ASTEnums.cpp` lines 1018-1060) plus `Undefined` and `UserDefined`, in the
order used by the range check `IsSystemSemantic`.
-/

inductive Semantic where
  | Undefined
  | UserDefined
  | ClipDistance
  | CullDistance
  | Coverage
  | Depth
  | DepthGreaterEqual
  | DepthLessEqual
  | DispatchThreadID
  | DomainLocation
  | GroupID
  | GroupIndex
  | GroupThreadID
  | GSInstanceID
  | InnerCoverage
  | InsideTessFactor
  | InstanceID
  | IsFrontFace
  | OutputControlPointID
  | FragCoord
  | PrimitiveID
  | RenderTargetArrayIndex
  | SampleIndex
  | StencilRef
  | Target
  | TessFactor
  | VertexID
  | VertexPosition
  | ViewportArrayIndex
deriving DecidableEq, Repr

/-- `ASTEnums.cpp` lines 1018-1060: `SemanticToString` — `"SV_" + #IDENT` for
every system value; `R_Undefined` / `R_UserDefined` (report identifiers from
`ReportIdents.h`, which is not under the provided sources) are modelled as
placeholder strings; no theorem below depends on their exact text. -/
def SemanticToString (t : Semantic) : List Char :=
  match t with
  | .Undefined => "<undefined>".toList
  | .UserDefined => "<user-defined>".toList
  | .ClipDistance => "SV_ClipDistance".toList
  | .CullDistance => "SV_CullDistance".toList
  | .Coverage => "SV_Coverage".toList
  | .Depth => "SV_Depth".toList
  | .DepthGreaterEqual => "SV_DepthGreaterEqual".toList
  | .DepthLessEqual => "SV_DepthLessEqual".toList
  | .DispatchThreadID => "SV_DispatchThreadID".toList
  | .DomainLocation => "SV_DomainLocation".toList
  | .GroupID => "SV_GroupID".toList
  | .GroupIndex => "SV_GroupIndex".toList
  | .GroupThreadID => "SV_GroupThreadID".toList
  | .GSInstanceID => "SV_GSInstanceID".toList
  | .InnerCoverage => "SV_InnerCoverage".toList
  | .InsideTessFactor => "SV_InsideTessFactor".toList
  | .InstanceID => "SV_InstanceID".toList
  | .IsFrontFace => "SV_IsFrontFace".toList
  | .OutputControlPointID => "SV_OutputControlPointID".toList
  | .FragCoord => "SV_FragCoord".toList
  | .PrimitiveID => "SV_PrimitiveID".toList
  | .RenderTargetArrayIndex => "SV_RenderTargetArrayIndex".toList
  | .SampleIndex => "SV_SampleIndex".toList
  | .StencilRef => "SV_StencilRef".toList
  | .Target => "SV_Target".toList
  | .TessFactor => "SV_TessFactor".toList
  | .VertexID => "SV_VertexID".toList
  | .VertexPosition => "SV_VertexPosition".toList
  | .ViewportArrayIndex => "SV_ViewportArrayIndex".toList

/-- The member fields of class `IndexedSemantic` (declared in `ASTEnums.h`):
`semantic_`, `index_` (a C++ `int` defaulting to 0) and `userDefined_`. -/
structure IndexedSemantic where
  semantic : Semantic
  index : Int
  userDefined : List Char
deriving DecidableEq, Repr

/-- Decimal digits, most significant first, computed with explicit fuel so
that the definition reduces inside the kernel; `fuel > n` always suffices. -/
def natToDigitsAux (fuel n : Nat) : List Char :=
  match fuel with
  | 0 => []
  | fuel + 1 =>
    if n < 10 then [Char.ofNat (n + 48)]
    else natToDigitsAux fuel (n / 10) ++ [Char.ofNat (n % 10 + 48)]

/-- Decimal digits of `n`, most significant first — the digit sequence
produced by `std::to_string` for a non-negative value. -/
def natToDigits (n : Nat) : List Char := natToDigitsAux (n + 1) n

/-- `std::to_string` on a C++ `int`. -/
def intToDigits (i : Int) : List Char :=
  if i < 0 then '-' :: natToDigits (-i).toNat else natToDigits i.toNat

/-- `std::atoi` on the all-digit strings this development feeds it. -/
def atoiNat (s : List Char) : Nat :=
  s.foldl (fun a c => a * 10 + (c.toNat - 48)) 0

/-- `ASTEnums.cpp` lines 931-945: the `IndexedSemantic(const std::string&)`
constructor.  `userDefined.find_last_not_of("0123456789")` and the
`pos != npos && pos + 1 < size` test are modelled through the length `k` of
the maximal all-digit suffix: the branch taken is the same iff
`k ≠ 0 ∧ k < length`, and then `pos + 1 = length - k`. -/
def IndexedSemantic.fromString (userDefined : List Char) : IndexedSemantic :=
  if (userDefined.reverse.takeWhile Char.isDigit).length ≠ 0 ∧
      (userDefined.reverse.takeWhile Char.isDigit).length < userDefined.length then
    { semantic := Semantic.UserDefined
      index := (atoiNat (userDefined.drop
          (userDefined.length - (userDefined.reverse.takeWhile Char.isDigit).length)) : Int)
      userDefined := userDefined.take
          (userDefined.length - (userDefined.reverse.takeWhile Char.isDigit).length) }
  else
    { semantic := Semantic.UserDefined, index := 0, userDefined := userDefined }

/-- `ASTEnums.cpp` lines 980-996: `IndexedSemantic::ToString` — user-defined
semantics are upper-cased (`::toupper`, modelled by `Char.toUpper`, identical
on ASCII), otherwise `SemanticToString`; then the index is appended. -/
def IndexedSemantic.ToString (s : IndexedSemantic) : List Char :=
  (if s.semantic = Semantic.UserDefined then s.userDefined.map Char.toUpper
   else SemanticToString s.semantic) ++ intToDigits s.index


/-!
## Literal tokens — `ASTEnums.cpp` lines 673-721

Modelled from the spec: the `Token` class (`Token.h`) is not under the
provided sources; spec §3.2 describes a token as a kind from a closed set plus
the exact lexeme text (`Spell()`).  Only the kinds named in `TokenToDataType`
matter; `Ident` and `Keyword` stand for the remaining kinds reaching the
`default` branch.
-/

inductive TokenTypes where
  | Ident
  | Keyword
  | BoolLiteral
  | IntLiteral
  | FloatLiteral
  | StringLiteral
deriving DecidableEq, Repr

structure Token where
  type : TokenTypes
  spell : List Char
deriving DecidableEq, Repr

/-- `ASTEnums.cpp` lines 673-685: `IntLiteralTokenToDataType` — a non-empty
lexeme ending in `'u'`/`'U'` is `UInt`, anything else is `Int`
(`s.back()` is the last character, modelled by `getLast?`). -/
def IntLiteralTokenToDataType (tkn : Token) : DataType :=
  match tkn.spell.getLast? with
  | some c => if c = 'u' ∨ c = 'U' then DataType.UInt else DataType.Int
  | none => DataType.Int

/-- `ASTEnums.cpp` lines 687-703: `FloatLiteralTokenToDataType` — a non-empty
lexeme ending in `'f'`/`'F'` is `Float`, in `'h'`/`'H'` is `Half`, anything
else is `Double`. -/
def FloatLiteralTokenToDataType (tkn : Token) : DataType :=
  match tkn.spell.getLast? with
  | some c =>
    if c = 'f' ∨ c = 'F' then DataType.Float
    else if c = 'h' ∨ c = 'H' then DataType.Half
    else DataType.Double
  | none => DataType.Double

/-- `ASTEnums.cpp` lines 705-721: `TokenToDataType` — dispatch on the token
kind; non-literal kinds fall through to `Undefined`. -/
def TokenToDataType (tkn : Token) : DataType :=
  match tkn.type with
  | .BoolLiteral => DataType.Bool
  | .IntLiteral => IntLiteralTokenToDataType tkn
  | .FloatLiteral => FloatLiteralTokenToDataType tkn
  | .StringLiteral => DataType.String
  | _ => DataType.Undefined


/-!
## GLSL generator — `GLSLGenerator.cpp`

The emitter writes text through `Write`/`WriteLn`; the embedded functions
return the text they would write (a `String`, or a list of emitted lines).
-/

/-- The `Intrinsic` enum is declared in `ASTEnums.h` (not under the provided
sources); only membership of `Clip` in the used-intrinsics table matters
here, so a representative subset of constructors is modelled. -/
inductive Intrinsic where
  | Abort
  | Clip
  | Mul
  | Rcp
  | InterlockedAdd
  | Trunc
deriving DecidableEq, Repr

/-- `GLSLGenerator.cpp` lines 110-127: `EstablishMaps` — the
`texFuncMap_` entries, verbatim (note the trailing space in the
`"GetDimensions "` key, present in the source). -/
def texFuncMap : List (String × String) :=
  [ ("GetDimensions ", "textureSize"),
    ("Load", "texelFetch"),
    ("Sample", "texture"),
    ("SampleBias", "textureOffset"),
    ("SampleGrad", "textureGrad"),
    ("SampleLevel", "textureLod") ]

/-- `GLSLGenerator.cpp` lines 1492-1519: `WriteFunctionCallIntrinsicTex` — the
member function name is looked up in `texFuncMap_` (an exact-key `std::map`
lookup, modelled by association-list lookup); an absent key is reported with
`Error("texture member function \"...\" is not supported")`; otherwise the
mapped free-function name is written, followed by the call's argument
expressions separated by `", "` in parentheses. -/
def WriteFunctionCallIntrinsicTex (memberFuncName : String) (args : List String) :
    Except String String :=
  match texFuncMap.lookup memberFuncName with
  | none => .error ("texture member function \"" ++ memberFuncName ++ "\" is not supported")
  | some funcName => .ok (funcName ++ "(" ++ String.intercalate ", " args ++ ")")


/-- `GLSLGenerator.cpp` lines 185-193: `AppendClipIntrinsics` — the lines
written for the synthesized `clip` overloads: a scalar overload comparing
directly against `0.0`, then one `any(lessThan(...))` overload for each of
`vec2`, `vec3`, `vec4`. -/
def AppendClipIntrinsics : List String :=
  "void clip(float x) { if (x < 0.0) discard; }" ::
  (["vec2", "vec3", "vec4"].map (fun typeName =>
    "void clip(" ++ typeName ++ " x) \x7b if (any(lessThan(x, " ++ typeName ++ "(0.0)))) discard; \x7d"))

/-- `GLSLGenerator.cpp` lines 174-183: `AppendAllReferencedIntrinsics` — emits
the clip helpers iff `Intrinsic::Clip` is in `Program::usedIntrinsics`
(modelled as the list of keys of that table).  This is invoked exactly once
per program, from the `Program` visitor (`GLSLGenerator.cpp` line 300). -/
def AppendAllReferencedIntrinsics (usedIntrinsics : List Intrinsic) : List String :=
  if usedIntrinsics.contains Intrinsic.Clip then AppendClipIntrinsics else []

/-- The clip helper overloads exactly as the spec sentence words them:
`void clip(T x) { if (any(lessThan(x, T(0)))) discard; }` for each
T ∈ {float, vec2, vec3, vec4}.  Stated only to be compared against the lines
the generator actually writes. -/
def AppendClipIntrinsicsClaimed : List String :=
  ["float", "vec2", "vec3", "vec4"].map (fun typeName =>
    "void clip(" ++ typeName ++ " x) \x7b if (any(lessThan(x, " ++ typeName ++ "(0)))) discard; \x7d")

/-- `GLSLGenerator.cpp` lines 207-217: `ValidateRegisterPrefix` — an empty
name or a wrong first character produces an error whose text is built from
`registerName[0]`; on an empty `std::string`, `operator[](0)` reads the
terminating null character, modelled by `headD (Char.ofNat 0)`. -/
def ValidateRegisterPrefix (registerName : List Char) (pfx : Char) : Option (List Char) :=
  if registerName = [] ∨ registerName.head? ≠ some pfx then
    some ("invalid register prefix '".toList ++ [registerName.headD (Char.ofNat 0)] ++
          "' (expected '".toList ++ [pfx] ++ "')".toList)
  else
    none


/-!
## Helper lemmas
-/

theorem char_ofNat_digit : ∀ m, m < 10 →
    (Char.ofNat (m + 48)).toNat = m + 48 ∧ (Char.ofNat (m + 48)).isDigit = true := by decide

theorem natToDigitsAux_spec : ∀ (fuel n : Nat), n < fuel →
    atoiNat (natToDigitsAux fuel n) = n ∧
    natToDigitsAux fuel n ≠ [] ∧
    ∀ c ∈ natToDigitsAux fuel n, c.isDigit = true := by
  intro fuel
  induction fuel with
  | zero => intro n h; omega
  | succ f ih =>
    intro n _
    by_cases h10 : n < 10
    · refine ⟨?_, ?_, ?_⟩ <;> simp only [natToDigitsAux, if_pos h10]
      · simp [atoiNat, (char_ofNat_digit n h10).1]
      · simp
      · intro c hc
        simp only [List.mem_singleton] at hc
        subst hc
        exact (char_ofNat_digit n h10).2
    · have hdiv : n / 10 < n := Nat.div_lt_self (by omega) (by omega)
      obtain ⟨ih1, ih2, ih3⟩ := ih (n / 10) (by omega)
      have hmod := char_ofNat_digit (n % 10) (Nat.mod_lt n (by omega))
      refine ⟨?_, ?_, ?_⟩ <;> simp only [natToDigitsAux, if_neg h10]
      · have : atoiNat (natToDigitsAux f (n / 10) ++ [Char.ofNat (n % 10 + 48)]) =
            atoiNat (natToDigitsAux f (n / 10)) * 10 +
              ((Char.ofNat (n % 10 + 48)).toNat - 48) := by
          simp [atoiNat, List.foldl_append]
        rw [this, ih1, hmod.1]
        omega
      · simp
      · intro c hc
        rcases List.mem_append.mp hc with hc | hc
        · exact ih3 c hc
        · simp only [List.mem_singleton] at hc
          subst hc
          exact hmod.2

theorem natToDigits_atoi (n : Nat) : atoiNat (natToDigits n) = n :=
  (natToDigitsAux_spec (n + 1) n (by omega)).1

theorem natToDigits_ne_nil (n : Nat) : natToDigits n ≠ [] :=
  (natToDigitsAux_spec (n + 1) n (by omega)).2.1

theorem natToDigits_isDigit (n : Nat) : ∀ c ∈ natToDigits n, c.isDigit = true :=
  (natToDigitsAux_spec (n + 1) n (by omega)).2.2

theorem takeWhile_append_of_all (p : Char → Bool) (xs ys : List Char)
    (h : ∀ x ∈ xs, p x = true) :
    (xs ++ ys).takeWhile p = xs ++ ys.takeWhile p := by
  induction xs with
  | nil => simp
  | cons x xs ihx =>
    have hx := h x (by simp)
    simp only [List.cons_append, List.takeWhile_cons, hx, if_true]
    rw [ihx (fun a ha => h a (by simp [ha]))]

theorem takeWhile_cons_of_neg (p : Char → Bool) (x : Char) (xs : List Char)
    (h : p x = false) : (x :: xs).takeWhile p = [] := by
  simp [List.takeWhile_cons, h]

theorem toUpper_not_digit (c : Char) (h : c.isDigit = false) :
    (Char.toUpper c).isDigit = false := by
  have key : ∀ m, m < 123 → 97 ≤ m → (Char.ofNat (m - 32)).isDigit = false := by decide
  unfold Char.toUpper
  show (if c.toNat ≥ 97 ∧ c.toNat ≤ 122 then Char.ofNat (c.toNat - 32) else c).isDigit = false
  by_cases hc : c.toNat ≥ 97 ∧ c.toNat ≤ 122
  · rw [if_pos hc]
    exact key c.toNat (by omega) hc.1
  · rw [if_neg hc]
    exact h

theorem MatrixDataType_one_row (base : DataType) (hb : IsScalarType base = true)
    (columns : Int) : MatrixDataType base 1 columns = VectorDataType base columns := by
  by_cases hc : columns = 1
  · subst hc
    simp [MatrixDataType, VectorDataType, hb]
  · simp [MatrixDataType, hb, hc]

theorem MatrixDataType_one_col (base : DataType) (hb : IsScalarType base = true)
    (rows : Int) : MatrixDataType base rows 1 = VectorDataType base rows := by
  by_cases hr : rows = 1
  · subst hr
    simp [MatrixDataType, VectorDataType, hb]
  · simp [MatrixDataType, hb, hr]

/-- C1: the claim states that `SubscriptDataType` on a matrix type rejects any
subscript chaining a zero-based `_mRC` component with a one-based `_RC`
component.  The code accepts such chains, because `ParseNextSubscript` decides
the base per component: evaluated at the claim's own example pair, the mixed
chain `"_m00_11"` on a `float4x4` is accepted and yields `float2`. -/
theorem subscriptDataType_accepts_mixed_bases :
    SubscriptDataType DataType.Float4x4 "_m00_11".toList = .ok DataType.Float2 ∧
    SubscriptDataType DataType.Float4x4 "_m00".toList = .ok DataType.Float ∧
    SubscriptDataType DataType.Float4x4 "_11".toList = .ok DataType.Float :=
  ⟨rfl, rfl, rfl⟩

/-- C2: for every vector data type `t`,
`VectorDataType (BaseDataType t) (VectorTypeDim t) = t`. -/
theorem vectorDataType_baseDataType_roundtrip (t : DataType)
    (h : IsVectorType t = true) :
    VectorDataType (BaseDataType t) (VectorTypeDim t) = t := by
  have hb : 8 ≤ t.val ∧ t.val ≤ 25 := of_decide_eq_true h
  have key : ∀ v : Nat, v < 26 → 8 ≤ v →
      VectorDataType (BaseDataType ⟨v⟩) (VectorTypeDim ⟨v⟩) = ⟨v⟩ := by decide
  exact key t.val (by omega) hb.1

theorem vectorDataType_baseDataType_roundtrip_witness :
    IsVectorType DataType.Float3 = true ∧
    VectorDataType (BaseDataType DataType.Float3) (VectorTypeDim DataType.Float3) =
      DataType.Float3 :=
  ⟨by decide, vectorDataType_baseDataType_roundtrip DataType.Float3 (by decide)⟩

/-- C4: for every scalar base data type, `VectorDataType` returns the base for
size 1 and `Bool2 + (base − Bool)·3 + (n − 2)` for sizes 2..4, and
`MatrixDataType` returns the base for 1×1, the corresponding vector type when
one dimension is 1, and `Bool2x2 + (base − Bool)·9 + (r − 2)·3 + (c − 2)` for
the 2..4 × 2..4 grid. -/
theorem vector_matrix_dataType_index_formulas (base : DataType)
    (hb : IsScalarType base = true) :
    VectorDataType base 1 = base ∧
    (∀ n : Int, 2 ≤ n → n ≤ 4 →
      VectorDataType base n =
        ⟨(Idx DataType.Bool2 + (Idx base - Idx DataType.Bool) * 3 + (n - 2)).toNat⟩) ∧
    MatrixDataType base 1 1 = base ∧
    (∀ c : Int, MatrixDataType base 1 c = VectorDataType base c) ∧
    (∀ r : Int, MatrixDataType base r 1 = VectorDataType base r) ∧
    (∀ r c : Int, 2 ≤ r → r ≤ 4 → 2 ≤ c → c ≤ 4 →
      MatrixDataType base r c =
        ⟨(Idx DataType.Bool2x2 + (Idx base - Idx DataType.Bool) * 9 +
            (r - 2) * 3 + (c - 2)).toNat⟩) := by
  have hv : 2 ≤ base.val ∧ base.val ≤ 7 := of_decide_eq_true hb
  refine ⟨?_, ?_, ?_, fun c => MatrixDataType_one_row base hb c,
    fun r => MatrixDataType_one_col base hb r, ?_⟩
  · simp [VectorDataType, hb]
  · intro n h2 h4
    obtain ⟨v⟩ := base
    obtain ⟨hv1, hv2⟩ : 2 ≤ v ∧ v ≤ 7 := hv
    interval_cases n <;> interval_cases v <;> decide
  · simp [MatrixDataType, hb]
  · intro r c hr2 hr4 hc2 hc4
    obtain ⟨v⟩ := base
    obtain ⟨hv1, hv2⟩ : 2 ≤ v ∧ v ≤ 7 := hv
    interval_cases r <;> interval_cases c <;> interval_cases v <;> decide

theorem vector_matrix_dataType_index_formulas_witness :
    IsScalarType DataType.Half = true ∧
    VectorDataType DataType.Half 3 =
      ⟨(Idx DataType.Bool2 + (Idx DataType.Half - Idx DataType.Bool) * 3 + (3 - 2)).toNat⟩ ∧
    MatrixDataType DataType.Half 4 2 =
      ⟨(Idx DataType.Bool2x2 + (Idx DataType.Half - Idx DataType.Bool) * 9 +
          (4 - 2) * 3 + (2 - 2)).toNat⟩ :=
  ⟨by decide,
   (vector_matrix_dataType_index_formulas DataType.Half (by decide)).2.1 3
     (by decide) (by decide),
   (vector_matrix_dataType_index_formulas DataType.Half (by decide)).2.2.2.2.2 4 2
     (by decide) (by decide) (by decide) (by decide)⟩

/-- C8: swizzling a scalar `float` with `"xyzw"` is rejected (only the single
component `x`/`r` exists on the one-component form), while `"x"` is accepted
and yields `float` again. -/
theorem float_swizzle_boundary :
    SubscriptDataType DataType.Float "xyzw".toList =
      .error (.invalidVectorSubscript "xyzw".toList DataType.Float) ∧
    SubscriptDataType DataType.Float "x".toList = .ok DataType.Float :=
  ⟨rfl, rfl⟩

/-- C5: the claim states every one of the six texture method names is lowered
to its free-function counterpart.  Five are; but the `texFuncMap_` key for
`GetDimensions` carries a trailing space (`"GetDimensions "`), so the actual
method name `"GetDimensions"` misses the map and is reported as unsupported. -/
theorem tex_method_lowering_eval :
    WriteFunctionCallIntrinsicTex "Sample" ["t", "uv"] = .ok "texture(t, uv)" ∧
    WriteFunctionCallIntrinsicTex "SampleBias" ["t", "uv", "b"] =
      .ok "textureOffset(t, uv, b)" ∧
    WriteFunctionCallIntrinsicTex "SampleGrad" ["t", "uv", "dx", "dy"] =
      .ok "textureGrad(t, uv, dx, dy)" ∧
    WriteFunctionCallIntrinsicTex "SampleLevel" ["t", "uv", "lod"] =
      .ok "textureLod(t, uv, lod)" ∧
    WriteFunctionCallIntrinsicTex "Load" ["t", "p"] = .ok "texelFetch(t, p)" ∧
    WriteFunctionCallIntrinsicTex "GetDimensions" ["t", "w", "h"] =
      .error "texture member function \"GetDimensions\" is not supported" :=
  ⟨rfl, rfl, rfl, rfl, rfl, rfl⟩

/-- C10: a register name that is empty or whose first character differs from
the expected prefix character is reported as an error; the message embeds
`registerName[0]`, which on the empty name is the read of index 0 of the
empty string (the terminating null character). -/
theorem validateRegisterPrefix_rejects (registerName : List Char) (pfx : Char)
    (h : registerName = [] ∨ registerName.head? ≠ some pfx) :
    ValidateRegisterPrefix registerName pfx =
      some ("invalid register prefix '".toList ++ [registerName.headD (Char.ofNat 0)] ++
            "' (expected '".toList ++ [pfx] ++ "')".toList) := by
  unfold ValidateRegisterPrefix
  rw [if_pos h]

theorem validateRegisterPrefix_rejects_witness :
    ValidateRegisterPrefix [] 'b' =
      some ("invalid register prefix '".toList ++ [Char.ofNat 0] ++
            "' (expected '".toList ++ ['b'] ++ "')".toList) :=
  validateRegisterPrefix_rejects [] 'b' (Or.inl rfl)

/-- C6 counterexample: the generator's clip helper lines differ from the
spec's claimed shape — the scalar overload is `if (x < 0.0) discard;`
rather than `if (any(lessThan(x, float(0)))) discard;`, and the vector
overloads use the literal `0.0`, not `0`. -/
theorem clip_intrinsics_claimed_lines_counterexample :
    AppendAllReferencedIntrinsics [Intrinsic.Clip] ≠ AppendClipIntrinsicsClaimed := by
  decide

/-- C6 (amended): iff `clip` is registered as used, the single per-program
call to `AppendAllReferencedIntrinsics` writes exactly the scalar overload
`void clip(float x) { if (x < 0.0) discard; }` and, for each
T ∈ {vec2, vec3, vec4}, `void clip(T x) { if (any(lessThan(x, T(0.0))))
discard; }`; with `clip` unused, nothing is written. -/
theorem clip_intrinsics_emission (usedIntrinsics : List Intrinsic) :
    (usedIntrinsics.contains Intrinsic.Clip = true →
      AppendAllReferencedIntrinsics usedIntrinsics =
        [ "void clip(float x) { if (x < 0.0) discard; }",
          "void clip(vec2 x) { if (any(lessThan(x, vec2(0.0)))) discard; }",
          "void clip(vec3 x) { if (any(lessThan(x, vec3(0.0)))) discard; }",
          "void clip(vec4 x) { if (any(lessThan(x, vec4(0.0)))) discard; }" ]) ∧
    (usedIntrinsics.contains Intrinsic.Clip = false →
      AppendAllReferencedIntrinsics usedIntrinsics = []) := by
  constructor <;> intro h <;> unfold AppendAllReferencedIntrinsics
  · rw [if_pos h]
    rfl
  · rw [if_neg (fun hm => by rw [hm] at h; exact absurd h (by decide))]

theorem clip_intrinsics_emission_witness :
    AppendAllReferencedIntrinsics [Intrinsic.Clip] =
      [ "void clip(float x) { if (x < 0.0) discard; }",
        "void clip(vec2 x) { if (any(lessThan(x, vec2(0.0)))) discard; }",
        "void clip(vec3 x) { if (any(lessThan(x, vec3(0.0)))) discard; }",
        "void clip(vec4 x) { if (any(lessThan(x, vec4(0.0)))) discard; }" ] ∧
    AppendAllReferencedIntrinsics [Intrinsic.Mul] = [] :=
  ⟨(clip_intrinsics_emission [Intrinsic.Clip]).1 (by decide),
   (clip_intrinsics_emission [Intrinsic.Mul]).2 (by decide)⟩

/-- C7: `TokenToDataType` classifies an integer literal as `UInt` iff its
lexeme ends in `u`/`U` (otherwise `Int`), and a float literal as `Float` for
an `f`/`F` suffix, `Half` for an `h`/`H` suffix, and `Double` otherwise. -/
theorem tokenToDataType_literal_suffixes (tkn : Token) :
    (tkn.type = TokenTypes.IntLiteral →
      ((tkn.spell.getLast? = some 'u' ∨ tkn.spell.getLast? = some 'U') →
        TokenToDataType tkn = DataType.UInt) ∧
      (¬(tkn.spell.getLast? = some 'u' ∨ tkn.spell.getLast? = some 'U') →
        TokenToDataType tkn = DataType.Int)) ∧
    (tkn.type = TokenTypes.FloatLiteral →
      ((tkn.spell.getLast? = some 'f' ∨ tkn.spell.getLast? = some 'F') →
        TokenToDataType tkn = DataType.Float) ∧
      ((tkn.spell.getLast? = some 'h' ∨ tkn.spell.getLast? = some 'H') →
        TokenToDataType tkn = DataType.Half) ∧
      (¬(tkn.spell.getLast? = some 'f' ∨ tkn.spell.getLast? = some 'F' ∨
          tkn.spell.getLast? = some 'h' ∨ tkn.spell.getLast? = some 'H') →
        TokenToDataType tkn = DataType.Double)) := by
  obtain ⟨ty, sp⟩ := tkn
  refine ⟨fun hty => ?_, fun hty => ?_⟩ <;> subst hty <;> simp only []
  · have e : TokenToDataType ⟨TokenTypes.IntLiteral, sp⟩ =
        IntLiteralTokenToDataType ⟨TokenTypes.IntLiteral, sp⟩ := rfl
    rw [e]
    rcases h : sp.getLast? with _ | c
    · refine ⟨fun hc => ?_, fun _ => ?_⟩
      · simp at hc
      · simp [IntLiteralTokenToDataType, h]
    · refine ⟨fun hc => ?_, fun hc => ?_⟩
      · have hc' : c = 'u' ∨ c = 'U' := by simpa using hc
        rcases hc' with rfl | rfl <;> simp [IntLiteralTokenToDataType, h]
      · have hc' : ¬(c = 'u' ∨ c = 'U') := by simpa using hc
        simp [IntLiteralTokenToDataType, h, if_neg hc']
  · have e : TokenToDataType ⟨TokenTypes.FloatLiteral, sp⟩ =
        FloatLiteralTokenToDataType ⟨TokenTypes.FloatLiteral, sp⟩ := rfl
    rw [e]
    rcases h : sp.getLast? with _ | c
    · refine ⟨fun hc => ?_, fun hc => ?_, fun _ => ?_⟩
      · simp at hc
      · simp at hc
      · simp [FloatLiteralTokenToDataType, h]
    · refine ⟨fun hc => ?_, fun hc => ?_, fun hc => ?_⟩
      · have hc' : c = 'f' ∨ c = 'F' := by simpa using hc
        rcases hc' with rfl | rfl <;> simp [FloatLiteralTokenToDataType, h]
      · have hc' : c = 'h' ∨ c = 'H' := by simpa using hc
        rcases hc' with rfl | rfl <;> simp [FloatLiteralTokenToDataType, h]
      · have hf : ¬(c = 'f' ∨ c = 'F') := by
          rcases Decidable.em (c = 'f' ∨ c = 'F') with hx | hx
          · exact absurd (by tauto) hc
          · exact hx
        have hh : ¬(c = 'h' ∨ c = 'H') := by
          rcases Decidable.em (c = 'h' ∨ c = 'H') with hx | hx
          · exact absurd (by tauto) hc
          · exact hx
        simp [FloatLiteralTokenToDataType, h, if_neg hf, if_neg hh]

theorem tokenToDataType_literal_suffixes_witness :
    TokenToDataType ⟨TokenTypes.IntLiteral, "42u".toList⟩ = DataType.UInt ∧
    TokenToDataType ⟨TokenTypes.IntLiteral, "42".toList⟩ = DataType.Int ∧
    TokenToDataType ⟨TokenTypes.FloatLiteral, "2.5f".toList⟩ = DataType.Float ∧
    TokenToDataType ⟨TokenTypes.FloatLiteral, "2.5H".toList⟩ = DataType.Half ∧
    TokenToDataType ⟨TokenTypes.FloatLiteral, "2.5".toList⟩ = DataType.Double :=
  ⟨((tokenToDataType_literal_suffixes ⟨TokenTypes.IntLiteral, "42u".toList⟩).1 rfl).1
      (by decide),
   ((tokenToDataType_literal_suffixes ⟨TokenTypes.IntLiteral, "42".toList⟩).1 rfl).2
      (by decide),
   ((tokenToDataType_literal_suffixes ⟨TokenTypes.FloatLiteral, "2.5f".toList⟩).2 rfl).1
      (by decide),
   ((tokenToDataType_literal_suffixes ⟨TokenTypes.FloatLiteral, "2.5H".toList⟩).2 rfl).2.1
      (by decide),
   ((tokenToDataType_literal_suffixes ⟨TokenTypes.FloatLiteral, "2.5".toList⟩).2 rfl).2.2
      (by decide)⟩

/-- C9: on a scalar or vector type of dimension n, any subscript of length
1..4 whose characters are all drawn from the first n characters of `xyzw`
(or all from the first n characters of `rgba`) is accepted — repeated
characters included — and yields the vector type over the same base whose
dimension is the subscript's length. -/
theorem subscriptDataTypeVector_accepts (t : DataType) (subscript : List Char)
    (ht : IsScalarType t = true ∨ IsVectorType t = true)
    (h1 : 1 ≤ subscript.length) (h4 : subscript.length ≤ 4)
    (hall : subscript.all
        (fun c => (['x', 'y', 'z', 'w'].take (VectorTypeDim t).toNat).contains c) = true ∨
      subscript.all
        (fun c => (['r', 'g', 'b', 'a'].take (VectorTypeDim t).toNat).contains c) = true) :
    SubscriptDataTypeVector t subscript (VectorTypeDim t) =
      .ok (VectorDataType (BaseDataType t) (subscript.length : Int)) := by
  have hd : 1 ≤ VectorTypeDim t ∧ VectorTypeDim t ≤ 4 := by
    have hv : 2 ≤ t.val ∧ t.val ≤ 25 := by
      rcases ht with h | h
      · obtain ⟨a, b⟩ : 2 ≤ t.val ∧ t.val ≤ 7 := of_decide_eq_true h
        exact ⟨by omega, by omega⟩
      · obtain ⟨a, b⟩ : 8 ≤ t.val ∧ t.val ≤ 25 := of_decide_eq_true h
        exact ⟨by omega, by omega⟩
    have key : ∀ v : Nat, v < 26 → 2 ≤ v →
        1 ≤ VectorTypeDim ⟨v⟩ ∧ VectorTypeDim ⟨v⟩ ≤ 4 := by decide
    exact key t.val (by omega) hv.1
  have hres : ∀ l : List Char, l.length = 4 →
      listResize l (VectorTypeDim t).toNat = l.take (VectorTypeDim t).toNat := by
    intro l hl
    unfold listResize
    rw [if_pos (by omega)]
  have hvalid : (IsValidSubscript subscript ['x', 'y', 'z', 'w'] (VectorTypeDim t) ||
      IsValidSubscript subscript ['r', 'g', 'b', 'a'] (VectorTypeDim t)) = true := by
    unfold IsValidSubscript
    rw [hres ['x', 'y', 'z', 'w'] rfl, hres ['r', 'g', 'b', 'a'] rfl, Bool.or_eq_true]
    rcases hall with h | h
    · exact Or.inl h
    · exact Or.inr h
  unfold SubscriptDataTypeVector
  rw [if_neg (by omega), if_neg (by omega), if_neg (not_not_intro hvalid)]

theorem subscriptDataTypeVector_accepts_witness :
    SubscriptDataTypeVector DataType.Float2 "xxyx".toList (VectorTypeDim DataType.Float2) =
      .ok (VectorDataType (BaseDataType DataType.Float2) (("xxyx".toList.length : Nat) : Int)) :=
  subscriptDataTypeVector_accepts DataType.Float2 "xxyx".toList
    (Or.inr (by decide)) (by decide) (by decide) (Or.inl (by decide))

/-- C3 counterexample: the claim quantifies over every `Semantic` kind, but
the string constructor always produces a `UserDefined` semantic, so the
round trip already fails at the system value `(Depth, 0)`: its `ToString` is
`"SV_Depth0"`, which parses back as `(UserDefined, 0, "SV_Depth")`. -/
theorem indexedSemantic_roundtrip_counterexample :
    IndexedSemantic.fromString (IndexedSemantic.ToString ⟨Semantic.Depth, 0, []⟩) ≠
      ⟨Semantic.Depth, 0, []⟩ := by decide

/-- C3 (amended): the round trip holds on the user-defined side: for any
user-defined semantic whose name is non-empty and does not end in a digit and
any index `i ≥ 0`, parsing `ToString` back yields `UserDefined`, the same
index, and the upper-cased name. -/
theorem indexedSemantic_roundtrip_userDefined (nm : List Char) (c : Char) (i : Int)
    (hlast : nm.getLast? = some c) (hdig : c.isDigit = false) (hi : 0 ≤ i) :
    IndexedSemantic.fromString (IndexedSemantic.ToString ⟨Semantic.UserDefined, i, nm⟩) =
      ⟨Semantic.UserDefined, i, nm.map Char.toUpper⟩ := by
  have hts : IndexedSemantic.ToString ⟨Semantic.UserDefined, i, nm⟩ =
      nm.map Char.toUpper ++ natToDigits i.toNat := by
    simp [IndexedSemantic.ToString, intToDigits, Int.not_lt.mpr hi]
  have hdsdig : ∀ x ∈ (natToDigits i.toNat).reverse, Char.isDigit x = true :=
    fun x hx => natToDigits_isDigit _ x (List.mem_reverse.mp hx)
  have hdsne : natToDigits i.toNat ≠ [] := natToDigits_ne_nil _
  have hdslen : (natToDigits i.toNat).length ≠ 0 :=
    fun h0 => hdsne (List.length_eq_zero.mp h0)
  obtain ⟨tl, htl⟩ : ∃ tl, nm.reverse = c :: tl := by
    cases hnm : nm.reverse with
    | nil =>
      have hnil : nm = [] := by simpa using congrArg List.reverse hnm
      subst hnil
      simp at hlast
    | cons a tl =>
      have ha : nm.getLast? = some a := by
        rw [← List.head?_reverse, hnm]
        rfl
      rw [hlast] at ha
      injection ha with ha
      subst ha
      exact ⟨tl, rfl⟩
  have hrev : (nm.map Char.toUpper ++ natToDigits i.toNat).reverse =
      (natToDigits i.toNat).reverse ++ (Char.toUpper c :: tl.map Char.toUpper) := by
    rw [List.reverse_append, ← List.map_reverse, htl]
    rfl
  have hk : ((nm.map Char.toUpper ++ natToDigits i.toNat).reverse.takeWhile
      Char.isDigit).length = (natToDigits i.toNat).length := by
    rw [hrev, takeWhile_append_of_all Char.isDigit _ _ hdsdig,
        takeWhile_cons_of_neg Char.isDigit _ _ (toUpper_not_digit c hdig)]
    simp
  have hnmlen : 1 ≤ nm.length := by
    have hlr := congrArg List.length htl
    simp at hlr
    omega
  have hlen : (nm.map Char.toUpper ++ natToDigits i.toNat).length =
      nm.length + (natToDigits i.toNat).length := by simp
  rw [hts]
  unfold IndexedSemantic.fromString
  rw [hk, if_pos (by constructor <;> omega)]
  have hupl : (nm.map Char.toUpper).length = nm.length := by simp
  have harg : (nm.map Char.toUpper ++ natToDigits i.toNat).length -
      (natToDigits i.toNat).length = (nm.map Char.toUpper).length := by
    rw [hlen, hupl]
    omega
  rw [harg, List.drop_left, List.take_left, natToDigits_atoi, Int.toNat_of_nonneg hi]

theorem indexedSemantic_roundtrip_userDefined_witness :
    IndexedSemantic.fromString
        (IndexedSemantic.ToString ⟨Semantic.UserDefined, 3, "TexCoord".toList⟩) =
      ⟨Semantic.UserDefined, 3, "TEXCOORD".toList⟩ :=
  (indexedSemantic_roundtrip_userDefined "TexCoord".toList 'd' 3
      (by decide) (by decide) (by decide)).trans (by decide)
